import Mathlib

/-!
Shallow embedding of the entity-component simulation and scene-lifecycle
engine of the CMPM121 final project (src/main.ts plus src/core/Engine.ts and
src/core/Input.ts).

Numeric quantities (positions, radii, timers) are embedded as rationals `ℚ`.
The source compares Euclidean distances against trigger radii
(`vec3.distance(p, q) < r`); since both sides are nonnegative this is
equivalent to `distSq p q < r * r`, which is what the embedding computes so
that everything stays in `ℚ`.

JavaScript `Map`s are embedded as association lists with overwrite-on-set
semantics; `Map.clear()` is the empty list.  Closures that capture mutable
state in the source (`collect()` on a key, `open()` on a door) are embedded
as named functions taking the captured identifiers (entity, persistent id)
as arguments; the interactable component stores those identifiers.

Cached transform matrices, mesh geometry, shaders, camera, theme and
localization text are presentation-layer data with no influence on the
simulation state transitions the claims are about; the renderable component
keeps only the mesh handle, and UI messages are kept as structured values
(the localization layer resolves them to display text).
-/

namespace Game

/-- `type KeyColor = "red" | "green" | "blue"` (and `DoorColor` is the same
union type in the source). -/
inductive KeyColor where
  | red
  | green
  | blue
deriving DecidableEq, Repr

abbrev DoorColor := KeyColor

/-- `type Entity = number` — opaque entity identifier. -/
abbrev Entity := Nat

/-- 3-vectors from gl-matrix, embedded componentwise over `ℚ`. -/
structure Vec3 where
  x : ℚ
  y : ℚ
  z : ℚ
deriving DecidableEq, Repr

/-- Squared Euclidean distance.  `vec3.distance p q < r` (with `r ≥ 0`)
is equivalent to `distSq p q < r * r`. -/
def distSq (p q : Vec3) : ℚ :=
  (p.x - q.x) * (p.x - q.x) + (p.y - q.y) * (p.y - q.y) +
    (p.z - q.z) * (p.z - q.z)

/-- `vec3.distance(p, q) < r`, embedded via squares. -/
def withinRadius (p q : Vec3) (r : ℚ) : Bool :=
  distSq p q < r * r

/-- `interface Transform` — position/rotation/scale (the cached matrix is a
pure function of these three fields, recomputed eagerly by
`updateTransformMatrix`, and is consumed only by the renderer, so it is not
carried in the embedding). -/
structure Transform where
  position : Vec3
  rotation : Vec3
  scale : Vec3
deriving DecidableEq, Repr

/-- Shared mesh handles (`SharedMeshes` fields); geometry is out of scope. -/
inductive MeshHandle where
  | playerCube
  | collectibleCube
  | platformCube
  | winPyramid
  | floorGrid
  | keyTriangle
  | doorRedCube
deriving DecidableEq, Repr

/-- `interface Renderable { drawable: Drawable }`. -/
structure Renderable where
  drawable : MeshHandle
deriving DecidableEq, Repr

/-- Physics body handle issued by the embedded physics world
(`OIMOBody` reference in the source). -/
abbrev BodyHandle := Nat

/-- `interface PhysicsBody { body: OIMOBody }`. -/
structure PhysicsBody where
  body : BodyHandle
deriving DecidableEq, Repr

/-- `interface Platform { topY: number }`. -/
structure Platform where
  topY : ℚ
deriving DecidableEq, Repr

/-- `interface Collectible { isCollected: boolean; triggerRadius: number }`. -/
structure Collectible where
  isCollected : Bool
  triggerRadius : ℚ
deriving DecidableEq, Repr

/-- `interface WinCondition { completed: boolean; triggerRadius: number }`. -/
structure WinCondition where
  completed : Bool
  triggerRadius : ℚ
deriving DecidableEq, Repr

/-- The two interactable variants built by `buildScene`.  The source stores
closures capturing the persistent id and the snapshot of the door's
`isOpen`; the embedding stores the captured data explicitly. -/
inductive InteractKind where
  | keyItem (id : String) (color : KeyColor)
  | doorItem (id : String) (color : DoorColor) (isOpen : Bool)
deriving DecidableEq, Repr

/-- `interface Interactable extends ProximityTrigger` with its variant. -/
structure Interactable where
  triggerRadius : ℚ
  kind : InteractKind
deriving DecidableEq, Repr

/-- `interface GlobalKeyState { color: KeyColor; collected: boolean }`. -/
structure GlobalKeyState where
  color : KeyColor
  collected : Bool
deriving DecidableEq, Repr

/-- `interface GlobalDoorState { color: DoorColor; isOpen: boolean }`. -/
structure GlobalDoorState where
  color : DoorColor
  isOpen : Bool
deriving DecidableEq, Repr

/-! ### Association-list embedding of JavaScript `Map` / `Set`

Keys are entity numbers for the component tables and string ids for the
persistent key/door state; the operations are shared. -/

/-- `Map.get` — first binding wins; `mset` keeps keys unique. -/
def mget {κ α : Type} [DecidableEq κ] (m : List (κ × α)) (k : κ) : Option α :=
  (m.find? (fun p => p.1 = k)).map (·.2)

/-- `Map.set` — overwrite the binding for `k` when present, otherwise append
a fresh binding at the tail (JavaScript `Map` iterates in insertion order). -/
def mset {κ α : Type} [DecidableEq κ] (m : List (κ × α)) (k : κ) (v : α) :
    List (κ × α) :=
  if (m.find? (fun p => p.1 = k)).isSome then
    m.map (fun p => if p.1 = k then (k, v) else p)
  else
    m ++ [(k, v)]

/-- `Map.delete`. -/
def mdel {κ α : Type} [DecidableEq κ] (m : List (κ × α)) (k : κ) :
    List (κ × α) :=
  m.filter (fun p => p.1 ≠ k)

/-! ### ECS registry -/

/-- `class ECS` — entity counter plus per-component tables.
`players` is a `Set<Entity>` of tags. -/
structure ECS where
  nextEntity : Nat
  transforms : List (Entity × Transform)
  renderables : List (Entity × Renderable)
  physicsBodies : List (Entity × PhysicsBody)
  collectibles : List (Entity × Collectible)
  interactables : List (Entity × Interactable)
  winConditions : List (Entity × WinCondition)
  platforms : List (Entity × Platform)
  players : List Entity
deriving DecidableEq, Repr

/-- A freshly constructed `new ECS()` (`nextEntity` starts at 1). -/
def ECS.empty : ECS :=
  { nextEntity := 1, transforms := [], renderables := [], physicsBodies := []
    collectibles := [], interactables := [], winConditions := []
    platforms := [], players := [] }

/-- `createEntity(): Entity { return this.nextEntity++; }` -/
def ECS.createEntity (ecs : ECS) : Entity × ECS :=
  (ecs.nextEntity, { ecs with nextEntity := ecs.nextEntity + 1 })

/-! ### Physics world -/

/-- The OIMO physics world, abstracted to the set of live rigid bodies
(the engine itself is an external black box; the embedding tracks body
handles so that creation/removal pairing is visible). -/
structure PhysWorld where
  nextHandle : BodyHandle
  bodies : List BodyHandle
deriving DecidableEq, Repr

/-- `new OIMO.World({...})`. -/
def PhysWorld.fresh : PhysWorld :=
  { nextHandle := 0, bodies := [] }

/-- `createBoxBody` / `world.add({...})` — returns a fresh handle.  Box
geometry and the `move`/`density` flags are consumed by the external
engine and do not affect the lifecycle state tracked here. -/
def PhysWorld.addBody (w : PhysWorld) : BodyHandle × PhysWorld :=
  (w.nextHandle, { nextHandle := w.nextHandle + 1
                   bodies := w.bodies ++ [w.nextHandle] })

/-- `world.removeRigidBody(body)`. -/
def PhysWorld.removeBody (w : PhysWorld) (h : BodyHandle) : PhysWorld :=
  { w with bodies := w.bodies.filter (fun b => b ≠ h) }

/-! ### Scene configuration -/

/-- `interface PlatformConfig`. -/
structure PlatformConfig where
  pos : Vec3
  size : Vec3
deriving DecidableEq, Repr

/-- Key descriptor from `SceneConfig.keys`. -/
structure KeyConfig where
  id : String
  color : KeyColor
  pos : Vec3
deriving DecidableEq, Repr

/-- Door descriptor from `SceneConfig.doors`. -/
structure DoorConfig where
  id : String
  color : DoorColor
  pos : Vec3
  size : Vec3
deriving DecidableEq, Repr

/-- `interface SceneConfig` (the optional `keys?`/`doors?` lists default to
`[]` via `config.keys ?? []`). -/
structure SceneConfig where
  playerStart : Vec3
  winconPos : Vec3
  collectibles : List Vec3
  platforms : List PlatformConfig
  keys : List KeyConfig
  doors : List DoorConfig
deriving DecidableEq, Repr

/-- `const testScene: SceneConfig`. -/
def testScene : SceneConfig :=
  { playerStart := ⟨0, 1/2, 0⟩
    winconPos := ⟨0, 15/2, -1⟩
    collectibles := [⟨0, 7/2, -3⟩, ⟨0, 3/2, 3⟩, ⟨0, 11/2, -8⟩]
    platforms :=
      [ ⟨⟨0, 3, -3⟩, ⟨3, 1/2, 3⟩⟩, ⟨⟨0, 1, 3⟩, ⟨3, 1/2, 3⟩⟩
      , ⟨⟨0, 5, -8⟩, ⟨3, 1/2, 3⟩⟩, ⟨⟨0, 7, -1⟩, ⟨3, 1/2, 3⟩⟩ ]
    keys := [⟨"keyRed1", KeyColor.red, ⟨0, 1, -5⟩⟩]
    doors := [] }

/-- `const scene2: SceneConfig`. -/
def scene2 : SceneConfig :=
  { playerStart := ⟨0, 1/2, 0⟩
    winconPos := ⟨0, 19/2, -12⟩
    collectibles :=
      [⟨4, 5/2, -2⟩, ⟨-4, 9/2, -5⟩, ⟨3, 13/2, -9⟩, ⟨-3, 17/2, -11⟩]
    platforms :=
      [ ⟨⟨1, 2, -2⟩, ⟨4, 1/2, 4⟩⟩, ⟨⟨-4, 4, -5⟩, ⟨3, 1/2, 3⟩⟩
      , ⟨⟨3, 5, -9⟩, ⟨4, 1/2, 4⟩⟩, ⟨⟨-3, 8, -11⟩, ⟨3, 1/2, 3⟩⟩
      , ⟨⟨0, 9, -12⟩, ⟨3, 1/2, 3⟩⟩ ]
    keys := []
    doors := [⟨"doorRed1", KeyColor.red, ⟨-1/2, 3, -2⟩, ⟨1/2, 5/2, 39/10⟩⟩] }

/-- `const scenes = [testScene, scene2]`. -/
def scenes : List SceneConfig := [testScene, scene2]

/-! ### Game state -/

/-- Structured UI messages (`showUIMessage` payloads).  The source builds the
display string from a localization template and the color; the message
identity carried here is what the simulation core requests. -/
inductive UIMsg where
  | interactPrompt
  | keyPickup (c : KeyColor)
  | doorOpened (c : DoorColor)
  | doorNeedKey (c : DoorColor)
deriving DecidableEq, Repr

/-- The module-level mutable state of src/main.ts that the simulation loop
and the scene lifecycle read and write:
* `invHeld` — the module-level `inventory.held` (checked by doors),
* `globalInvHeld` — `globalState.inventory.held` (written by key `collect()`),
* `globalKeys` / `globalDoors` — `globalState.keys` / `globalState.doors`,
* `uiMessage` / `uiTimer` — the single-slot UI message (`showUIMessage`),
* `victoryAlert` — whether `alert("You Win!")` has fired. -/
structure GameState where
  ecs : ECS
  world : PhysWorld
  playerEntity : Entity
  invHeld : Option KeyColor
  globalInvHeld : Option KeyColor
  globalKeys : List (String × GlobalKeyState)
  globalDoors : List (String × GlobalDoorState)
  uiMessage : Option UIMsg
  uiTimer : ℚ
  currentSceneIndex : Nat
  physicsAccumulator : ℚ
  victoryAlert : Bool
deriving DecidableEq, Repr

/-- Process start: fresh ECS, fresh world, empty persistent state. -/
def GameState.fresh : GameState :=
  { ecs := ECS.empty, world := PhysWorld.fresh, playerEntity := 0
    invHeld := none, globalInvHeld := none, globalKeys := [], globalDoors := []
    uiMessage := none, uiTimer := 0, currentSceneIndex := 0
    physicsAccumulator := 0, victoryAlert := false }

/-- `showUIMessage(msg, duration)`. -/
def showUIMessage (msg : UIMsg) (duration : ℚ) (s : GameState) : GameState :=
  { s with uiMessage := some msg, uiTimer := duration }

def vzero : Vec3 := ⟨0, 0, 0⟩
def vone : Vec3 := ⟨1, 1, 1⟩

/-! ### Scene building (`buildScene`) -/

/-- The key loop body of `buildScene`: ensure the persistent entry exists,
skip when already collected, otherwise create the key entity with its
`Interactable::Key` projection (radius 1.0, color taken from the persistent
`keyState`, as in the source closure). -/
def buildKey (k : KeyConfig) (s : GameState) : GameState :=
  let s :=
    if (mget s.globalKeys k.id).isSome then s
    else { s with globalKeys := mset s.globalKeys k.id ⟨k.color, false⟩ }
  match mget s.globalKeys k.id with
  | none => s
  | some ks =>
    if ks.collected then s
    else
      let (keyE, ecs) := s.ecs.createEntity
      let ecs := { ecs with
        transforms := mset ecs.transforms keyE ⟨k.pos, vzero, vone⟩
        renderables := mset ecs.renderables keyE ⟨MeshHandle.keyTriangle⟩
        interactables := mset ecs.interactables keyE
          ⟨1, InteractKind.keyItem k.id ks.color⟩ }
      { s with ecs := ecs }

/-- The door loop body of `buildScene`: ensure the persistent entry exists,
skip when already open, otherwise create the door entity with transform,
renderable, a static physics body, and its `Interactable::Door` projection
(radius 2.0, color and `isOpen` snapshot taken from the persistent
`doorState`). -/
def buildDoor (d : DoorConfig) (s : GameState) : GameState :=
  let s :=
    if (mget s.globalDoors d.id).isSome then s
    else { s with globalDoors := mset s.globalDoors d.id ⟨d.color, false⟩ }
  match mget s.globalDoors d.id with
  | none => s
  | some ds =>
    if ds.isOpen then s
    else
      let (doorE, ecs) := s.ecs.createEntity
      let (doorBody, world) := s.world.addBody
      let ecs := { ecs with
        transforms := mset ecs.transforms doorE ⟨d.pos, vzero, d.size⟩
        renderables := mset ecs.renderables doorE ⟨MeshHandle.doorRedCube⟩
        physicsBodies := mset ecs.physicsBodies doorE ⟨doorBody⟩
        interactables := mset ecs.interactables doorE
          ⟨2, InteractKind.doorItem d.id ds.color ds.isOpen⟩ }
      { s with ecs := ecs, world := world }

/-- The collectible loop body of `buildScene` (always built fresh,
`isCollected` initialized false, radius 1.0). -/
def buildCollectible (pos : Vec3) (s : GameState) : GameState :=
  let (cE, ecs) := s.ecs.createEntity
  let ecs := { ecs with
    transforms := mset ecs.transforms cE ⟨pos, vzero, vone⟩
    renderables := mset ecs.renderables cE ⟨MeshHandle.collectibleCube⟩
    collectibles := mset ecs.collectibles cE ⟨false, 1⟩ }
  { s with ecs := ecs }

/-- The raised-platform loop body of `buildScene`:
`topY = pos.y + size.y / 2`. -/
def buildPlatform (p : PlatformConfig) (s : GameState) : GameState :=
  let (pE, ecs) := s.ecs.createEntity
  let (body, world) := s.world.addBody
  let ecs := { ecs with
    transforms := mset ecs.transforms pE ⟨p.pos, vzero, p.size⟩
    renderables := mset ecs.renderables pE ⟨MeshHandle.platformCube⟩
    physicsBodies := mset ecs.physicsBodies pE ⟨body⟩
    platforms := mset ecs.platforms pE ⟨p.pos.y + p.size.y / 2⟩ }
  { s with ecs := ecs, world := world }

/-- `buildScene(gl, world, ecs, meshes, config, gridSize)`, in source order:
player, floor, win condition, collectibles, keys, doors, platforms.
Returns the new state and the player entity (`SceneBuildResult`). -/
def buildScene (config : SceneConfig) (s : GameState) : GameState × Entity :=
  -- Player
  let (playerE, ecs) := s.ecs.createEntity
  let (playerBody, world) := s.world.addBody
  let ecs := { ecs with
    transforms := mset ecs.transforms playerE ⟨config.playerStart, vzero, vone⟩
    renderables := mset ecs.renderables playerE ⟨MeshHandle.playerCube⟩
    physicsBodies := mset ecs.physicsBodies playerE ⟨playerBody⟩
    players := ecs.players ++ [playerE] }
  -- Floor (grid render + static platform physics, top of floor at y = 0)
  let (floorE, ecs) := ecs.createEntity
  let (floorBody, world) := world.addBody
  let ecs := { ecs with
    transforms := mset ecs.transforms floorE ⟨vzero, vzero, vone⟩
    renderables := mset ecs.renderables floorE ⟨MeshHandle.floorGrid⟩
    physicsBodies := mset ecs.physicsBodies floorE ⟨floorBody⟩
    platforms := mset ecs.platforms floorE ⟨0⟩ }
  -- Win condition (completed: false, triggerRadius: 1.0)
  let (winE, ecs) := ecs.createEntity
  let ecs := { ecs with
    transforms := mset ecs.transforms winE ⟨config.winconPos, vzero, vone⟩
    renderables := mset ecs.renderables winE ⟨MeshHandle.winPyramid⟩
    winConditions := mset ecs.winConditions winE ⟨false, 1⟩ }
  let s := { s with ecs := ecs, world := world }
  -- Collectibles, Keys, Doors, Raised Platforms
  let s := config.collectibles.foldl (fun s pos => buildCollectible pos s) s
  let s := config.keys.foldl (fun s k => buildKey k s) s
  let s := config.doors.foldl (fun s d => buildDoor d s) s
  let s := config.platforms.foldl (fun s p => buildPlatform p s) s
  (s, playerE)

/-! ### Scene reload (`loadScene`) -/

/-- `loadScene(sceneIndex)`: clear the ECS tables (the source's clear block
clears `transforms`, `renderables`, `physicsBodies`, `collectibles`,
`winConditions`, `platforms` and `players` — it does NOT clear
`interactables`), recreate the physics world, and build the scene at
`sceneIndex`.  Call sites guarantee `sceneIndex < scenes.length`, so the
`getD` default is never read. -/
def loadScene (sceneIndex : Nat) (s : GameState) : GameState :=
  let ecs := { s.ecs with
    transforms := [], renderables := [], physicsBodies := []
    collectibles := [], winConditions := [], platforms := [], players := [] }
  let world := PhysWorld.fresh
  let (s2, playerE) :=
    buildScene (scenes.getD sceneIndex testScene) { s with ecs := ecs, world := world }
  { s2 with playerEntity := playerE }

/-! ### Interaction closures

The source stores closures on the interactable objects; here they are named
functions taking the captured entity and persistent id. -/

/-- The key's `collect()` closure: set the persistent `collected` flag, put
the key's color into `globalState.inventory.held`, show the pickup message,
and delete the entity's renderable and interactable components.  The
captured `keyState` always exists in `globalState.keys` (it was inserted by
`buildScene`); a missing entry is embedded as a no-op. -/
def keyCollect (keyE : Entity) (id : String) (s : GameState) : GameState :=
  match mget s.globalKeys id with
  | none => s
  | some ks =>
    let s := { s with
      globalKeys := mset s.globalKeys id { ks with collected := true }
      globalInvHeld := some ks.color }
    let s := showUIMessage (UIMsg.keyPickup ks.color) (3/2) s
    { s with ecs := { s.ecs with
        renderables := mdel s.ecs.renderables keyE
        interactables := mdel s.ecs.interactables keyE } }

/-- The key's `onInteract()` dispatches to the free function
`onInteract(obj)`, which for a key runs `obj.collect()`, then
`inventory.held = obj.color`, then shows the pickup message.  `color` is the
interactable's stored color field. -/
def keyOnInteract (keyE : Entity) (id : String) (color : KeyColor)
    (s : GameState) : GameState :=
  let s := keyCollect keyE id s
  let s := { s with invHeld := some color }
  showUIMessage (UIMsg.keyPickup color) (3/2) s

/-- The door's `open()` closure: set the persistent `isOpen` flag, show the
opened message, remove the captured rigid body from the physics world, and
delete the entity's renderable, physics-body and interactable components.
The closure captures `doorBody` directly; it equals the `physicsBodies`
entry for `doorE`, which is how the embedding retrieves it. -/
def doorOpen (doorE : Entity) (id : String) (s : GameState) : GameState :=
  match mget s.globalDoors id with
  | none => s
  | some ds =>
    let s := { s with globalDoors := mset s.globalDoors id { ds with isOpen := true } }
    let s := showUIMessage (UIMsg.doorOpened ds.color) (3/2) s
    let world :=
      match mget s.ecs.physicsBodies doorE with
      | some pb => s.world.removeBody pb.body
      | none => s.world
    { s with world := world
             ecs := { s.ecs with
               renderables := mdel s.ecs.renderables doorE
               physicsBodies := mdel s.ecs.physicsBodies doorE
               interactables := mdel s.ecs.interactables doorE } }

/-- The door's `onInteract()` closure:
`if (inventory.held === this.color && !this.isOpen) this.open();
else if (inventory.held !== this.color) show doorNeedKey`.
`color` and `isOpenSnap` are the interactable's stored fields. -/
def doorOnInteract (doorE : Entity) (id : String) (color : DoorColor)
    (isOpenSnap : Bool) (s : GameState) : GameState :=
  if s.invHeld = some color ∧ isOpenSnap = false then
    doorOpen doorE id s
  else if s.invHeld ≠ some color then
    showUIMessage (UIMsg.doorNeedKey color) (3/2) s
  else
    s

/-- Dispatch `obj.onInteract()` on the stored variant. -/
def interactDispatch (e : Entity) (it : Interactable) (s : GameState) :
    GameState :=
  match it.kind with
  | InteractKind.keyItem id c => keyOnInteract e id c s
  | InteractKind.doorItem id c o => doorOnInteract e id c o s

/-! ### Per-frame trigger evaluation (fragments of the engine tick) -/

/-- The `allCollected` scan at the top of the pickup block (computed BEFORE
this frame's pickups are applied). -/
def computeAllCollected (ecs : ECS) : Bool :=
  ecs.collectibles.all (fun p => p.2.isCollected)

/-- The collectible-pickup loop: each not-yet-collected collectible with a
transform within its trigger radius of the player is marked collected. -/
def pickupStep (playerPos : Vec3) (ecs : ECS) : ECS :=
  { ecs with collectibles := ecs.collectibles.map (fun p =>
      if p.2.isCollected then p
      else
        match mget ecs.transforms p.1 with
        | none => p
        | some t =>
          if withinRadius playerPos t.position p.2.triggerRadius then
            (p.1, { p.2 with isCollected := true })
          else p) }

/-- The body of the win-condition check, iterating the `winConditions` map.
On a trigger: mark completed, advance `currentSceneIndex`, and either reload
the next scene (resetting the physics accumulator) — which clears the map
being iterated, ending the iteration — or fire the victory alert and keep
iterating. -/
def winCheckList (playerPos : Vec3) :
    List (Entity × WinCondition) → GameState → GameState
  | [], s => s
  | (e, win) :: rest, s =>
    if win.completed then winCheckList playerPos rest s
    else
      match mget s.ecs.transforms e with
      | none => winCheckList playerPos rest s
      | some t =>
        if withinRadius playerPos t.position win.triggerRadius then
          let wins := mset s.ecs.winConditions e { win with completed := true }
          let ecs := { s.ecs with winConditions := wins }
          let s := { s with ecs := ecs,
                            currentSceneIndex := s.currentSceneIndex + 1 }
          if s.currentSceneIndex < scenes.length then
            let s := loadScene s.currentSceneIndex s
            { s with physicsAccumulator := 0 }
          else
            winCheckList playerPos rest { s with victoryAlert := true }
        else winCheckList playerPos rest s

/-- The win-condition check block, gated on `allCollected`. -/
def winCheckStep (allCollected : Bool) (playerPos : Vec3) (s : GameState) :
    GameState :=
  if allCollected then winCheckList playerPos s.ecs.winConditions s else s

/-- The trigger-evaluation portion of the engine tick in source order:
compute `allCollected` from the pre-frame collectible flags, run the pickup
loop, then run the win-condition check. -/
def triggerPhase (playerPos : Vec3) (s : GameState) : GameState :=
  let allCollected := computeAllCollected s.ecs
  let s := { s with ecs := pickupStep playerPos s.ecs }
  winCheckStep allCollected playerPos s

/-! ### Fixed-step physics scheduling -/

/-- `const fixedTimeStep = 1 / 60`. -/
def fixedTimeStep : ℚ := 1 / 60

/-- The fixed-step catch-up loop
`while (physicsAccumulator >= fixedTimeStep) { world.step(); physicsAccumulator -= fixedTimeStep; }`
run on an accumulator value, returning the post-loop accumulator and the
number of `world.step()` calls performed. -/
def fixedStepLoop (acc : ℚ) : ℚ × Nat :=
  if h : fixedTimeStep ≤ acc then
    let r := fixedStepLoop (acc - fixedTimeStep)
    (r.1, r.2 + 1)
  else
    (acc, 0)
termination_by (⌊acc * 60⌋).toNat
decreasing_by
  have h1 : (1 : ℚ) ≤ acc * 60 := by
    rw [fixedTimeStep] at h
    calc (1 : ℚ) = 1 / 60 * 60 := by norm_num
    _ ≤ acc * 60 := mul_le_mul_of_nonneg_right h (by norm_num)
  have h2 : (acc - fixedTimeStep) * 60 = acc * 60 - 1 := by
    rw [fixedTimeStep]; ring
  have h3 : (1 : ℤ) ≤ ⌊acc * 60⌋ := Int.le_floor.mpr (by exact_mod_cast h1)
  have h4 : ⌊acc * 60 - 1⌋ = ⌊acc * 60⌋ - 1 := Int.floor_sub_one _
  rw [h2, h4]
  omega

/-- The fixed-step physics block of the engine tick:
`physicsAccumulator += dt` followed by the catch-up loop. -/
def tickPhysics (acc dt : ℚ) : ℚ × Nat :=
  fixedStepLoop (acc + dt)

/-- `Engine.frame`: `const deltaTime = (time - this.lastTime) / 1000`
(milliseconds to seconds). -/
def frameDelta (lastTime time : ℚ) : ℚ :=
  (time - lastTime) / 1000

/-- `Engine.frame`: `const safeDeltaTime = Math.min(deltaTime, 0.1)` —
clamp the delta passed to the tick to at most 100 ms. -/
def safeDelta (deltaTime : ℚ) : ℚ :=
  min deltaTime (1 / 10)

/-! ### Input (src/core/Input.ts) -/

/-- The `Input` class state: `keysDown`, `keysPressed`, `keysReleased`
(JavaScript `Set<string>`s of key codes). -/
structure InputState where
  keysDown : Finset String
  keysPressed : Finset String
  keysReleased : Finset String
deriving DecidableEq

/-- State after `Input.init()` — three empty sets. -/
def InputState.init : InputState :=
  { keysDown := ∅, keysPressed := ∅, keysReleased := ∅ }

/-- The `keydown` listener: the key is added to `keysPressed` only when it
is not already in `keysDown`; it is always added to `keysDown`. -/
def keydownEvent (code : String) (st : InputState) : InputState :=
  let pressed :=
    if code ∈ st.keysDown then st.keysPressed else insert code st.keysPressed
  { st with keysPressed := pressed, keysDown := insert code st.keysDown }

/-- The `keyup` listener: remove from `keysDown`, add to `keysReleased`. -/
def keyupEvent (code : String) (st : InputState) : InputState :=
  { st with keysDown := st.keysDown.erase code
            keysReleased := insert code st.keysReleased }

/-- `Input.update()`: clear the pressed and released edge sets (called once
at the end of every engine tick). -/
def updateInput (st : InputState) : InputState :=
  { st with keysPressed := ∅, keysReleased := ∅ }

/-- `Input.isKeyDown(key)`. -/
def isKeyDown (key : String) (st : InputState) : Bool :=
  key ∈ st.keysDown

/-- `Input.wasKeyPressed(key)`. -/
def wasKeyPressed (key : String) (st : InputState) : Bool :=
  key ∈ st.keysPressed

/-! ### Concrete states used to exercise the operations -/

/-- A scene descriptor with two key descriptors sharing the id `"k"` —
the configuration the spec calls a configuration error. -/
def dupKeyScene : SceneConfig :=
  { playerStart := ⟨0, 1/2, 0⟩
    winconPos := ⟨0, 0, 0⟩
    collectibles := []
    platforms := []
    keys := [⟨"k", KeyColor.red, ⟨0, 0, 0⟩⟩, ⟨"k", KeyColor.blue, ⟨1, 0, 0⟩⟩]
    doors := [] }

/-- A state with one closed red door registered in persistent state and the
red key held. -/
def demoDoorState : GameState :=
  { GameState.fresh with
    invHeld := some KeyColor.red
    globalDoors := [("doorRed1", ⟨KeyColor.red, false⟩)] }

/-- A state whose only win condition is already completed. -/
def demoWinDone : GameState :=
  { GameState.fresh with
    ecs := { ECS.empty with winConditions := [(3, ⟨true, 1⟩)] } }

/-- Persistent state in which key `"keyRed1"` is already collected. -/
def demoKeyCollected : GameState :=
  { GameState.fresh with globalKeys := [("keyRed1", ⟨KeyColor.red, true⟩)] }

/-- Persistent state in which door `"doorRed1"` is already open. -/
def demoDoorOpen : GameState :=
  { GameState.fresh with globalDoors := [("doorRed1", ⟨KeyColor.red, true⟩)] }

/-- A state holding the blue key, with the red key `"keyRed1"` still
uncollected in persistent state. -/
def demoHoldingBlue : GameState :=
  { GameState.fresh with
    invHeld := some KeyColor.blue
    globalInvHeld := some KeyColor.blue
    globalKeys := [("keyRed1", ⟨KeyColor.red, false⟩)] }

/-- A state with a single uncollected collectible. -/
def demoUncollected : GameState :=
  { GameState.fresh with
    ecs := { ECS.empty with collectibles := [(4, ⟨false, 1⟩)] } }

/-- Persistent key entry for a duplicated id, as left behind by the first of
two descriptors sharing id `"k"`. -/
def demoDupRegistered : GameState :=
  { GameState.fresh with globalKeys := [("k", ⟨KeyColor.red, false⟩)] }

/-! ## Verification

Helper lemmas, followed by one theorem per claim (with witnesses). -/

theorem find?_map_overwrite {κ α : Type} [DecidableEq κ] (k : κ) (v : α) :
    ∀ (m : List (κ × α)), (m.find? (fun p => p.1 = k)).isSome →
      (m.map (fun p => if p.1 = k then (k, v) else p)).find?
        (fun p => p.1 = k) = some (k, v) := by
  intro m
  induction m with
  | nil => intro h; simp at h
  | cons p rest ih =>
    intro h
    by_cases hp : p.1 = k
    · simp [List.find?_cons, hp]
    · have h2 : (rest.find? (fun q => q.1 = k)).isSome := by
        simpa [List.find?_cons, hp] using h
      simpa [List.find?_cons, hp] using ih h2

theorem find?_append_of_none {α : Type} (p : α → Bool) (m : List α) (x : α)
    (h : m.find? p = none) (hx : p x = true) :
    (m ++ [x]).find? p = some x := by
  induction m with
  | nil => simp [List.find?, hx]
  | cons a rest ih =>
    by_cases hpa : p a = true
    · simp [List.find?_cons, hpa] at h
    · have hpa2 : p a = false := by simpa using hpa
      rw [List.find?_cons_of_neg _ (by simp [hpa2])] at h
      rw [List.cons_append, List.find?_cons_of_neg _ (by simp [hpa2])]
      exact ih h

theorem mget_mset_self {κ α : Type} [DecidableEq κ] (m : List (κ × α))
    (k : κ) (v : α) : mget (mset m k v) k = some v := by
  unfold mget mset
  by_cases h : (m.find? (fun p => p.1 = k)).isSome
  · rw [if_pos h, find?_map_overwrite k v m h]
    rfl
  · rw [if_neg h]
    have h0 : m.find? (fun p => p.1 = k) = none :=
      Option.not_isSome_iff_eq_none.mp h
    rw [find?_append_of_none _ m (k, v) h0 (by simp)]
    rfl

theorem mget_mdel_self {κ α : Type} [DecidableEq κ] (m : List (κ × α))
    (k : κ) : mget (mdel m k) k = none := by
  unfold mget mdel
  induction m with
  | nil => rfl
  | cons p rest ih =>
    by_cases hp : p.1 = k
    · simpa [List.filter_cons, hp] using ih
    · simpa [List.filter_cons, hp, List.find?_cons] using ih

theorem fixedTimeStep_pos : (0 : ℚ) < fixedTimeStep := by
  rw [fixedTimeStep]; norm_num

theorem fixedStepLoop_spec (acc : ℚ) :
    0 ≤ acc →
      0 ≤ (fixedStepLoop acc).1 ∧ (fixedStepLoop acc).1 < fixedTimeStep ∧
        ((fixedStepLoop acc).2 : ℤ) = ⌊acc / fixedTimeStep⌋ := by
  induction acc using fixedStepLoop.induct with
  | case1 acc hge ih =>
    intro _
    have h2 : 0 ≤ acc - fixedTimeStep := sub_nonneg.mpr hge
    obtain ⟨ih1, ih2, ih3⟩ := ih h2
    rw [fixedStepLoop, dif_pos hge]
    dsimp only
    refine ⟨ih1, ih2, ?_⟩
    push_cast
    rw [ih3, sub_div, div_self (ne_of_gt fixedTimeStep_pos), Int.floor_sub_one]
    ring
  | case2 acc hlt =>
    intro h0
    rw [fixedStepLoop, dif_neg hlt]
    refine ⟨h0, not_le.mp hlt, ?_⟩
    have h1 : 0 ≤ acc / fixedTimeStep :=
      div_nonneg h0 (le_of_lt fixedTimeStep_pos)
    have h2 : acc / fixedTimeStep < 1 :=
      (div_lt_one fixedTimeStep_pos).mpr (not_le.mp hlt)
    rw [eq_comm]
    rw [show ((0, 0) : ℚ × Nat).2 = 0 from rfl]
    push_cast
    rw [Int.floor_eq_zero_iff]
    exact ⟨h1, h2⟩


theorem winCheckList_completed (p : Vec3) :
    ∀ (l : List (Entity × WinCondition)) (s : GameState),
      (∀ pr ∈ l, pr.2.completed = true) → winCheckList p l s = s := by
  intro l
  induction l with
  | nil => intro s _; rfl
  | cons pr rest ih =>
    intro s h
    have h1 : pr.2.completed = true := h pr (List.mem_cons_self pr rest)
    obtain ⟨e, win⟩ := pr
    rw [winCheckList]
    rw [if_pos h1]
    exact ih s (fun q hq => h q (List.mem_cons_of_mem _ hq))

/-- Claim C5: when every win condition's `completed` flag is already true,
running the win-condition trigger-evaluation step again performs no
mutation at all — in particular the scene index is not re-advanced and no
scene rebuild occurs. -/
theorem win_trigger_at_most_once (b : Bool) (p : Vec3) (s : GameState)
    (h : s.ecs.winConditions.all (fun pr => pr.2.completed) = true) :
    winCheckStep b p s = s := by
  unfold winCheckStep
  have h2 : ∀ pr ∈ s.ecs.winConditions, pr.2.completed = true := by
    intro pr hpr
    exact List.all_eq_true.mp h pr hpr
  cases b with
  | false => rfl
  | true => simpa using winCheckList_completed p s.ecs.winConditions s h2

theorem foldl_inv {α σ γ : Type} (f : σ → α → σ) (g : σ → γ)
    (h : ∀ s x, g (f s x) = g s) :
    ∀ (l : List α) (s : σ), g (l.foldl f s) = g s := by
  intro l
  induction l with
  | nil => intro s; rfl
  | cons x rest ih =>
    intro s
    rw [List.foldl_cons, ih, h]

/-- Claim C6: for every non-negative accumulator value and non-negative
`dt`, after the fixed-step physics loop the accumulator remainder lies in
`[0, fixedTimeStep)` with `fixedTimeStep = 1/60 s`, and the number of
`world.step()` calls equals `⌊(accumulator + dt) / fixedTimeStep⌋`. -/
theorem fixed_step_accumulator_invariant (acc dt : ℚ)
    (hacc : 0 ≤ acc) (hdt : 0 ≤ dt) :
    0 ≤ (tickPhysics acc dt).1 ∧ (tickPhysics acc dt).1 < fixedTimeStep ∧
      ((tickPhysics acc dt).2 : ℤ) = ⌊(acc + dt) / fixedTimeStep⌋ := by
  unfold tickPhysics
  exact fixedStepLoop_spec (acc + dt) (add_nonneg hacc hdt)

/-- Witness for C6 at `accumulator = 0`, `dt = 1`. -/
theorem fixed_step_accumulator_invariant_witness :
    0 ≤ (0 : ℚ) ∧ 0 ≤ (1 : ℚ) ∧
      (0 ≤ (tickPhysics 0 1).1 ∧ (tickPhysics 0 1).1 < fixedTimeStep ∧
        ((tickPhysics 0 1).2 : ℤ) = ⌊((0 : ℚ) + 1) / fixedTimeStep⌋) :=
  ⟨le_refl 0, by norm_num, fixed_step_accumulator_invariant 0 1 (le_refl 0) (by norm_num)⟩

/-- Claim C8: `Engine.frame` clamps the incoming delta to at most 100 ms
(`safeDelta`), so for any raw delta the fixed-step loop performs at most
`⌊(accumulator + 0.1) / fixedTimeStep⌋` steps; in particular a 500 ms stall
with an empty accumulator yields 6 steps, not 30, and the loop terminates
(`fixedStepLoop` is a total function). -/
theorem clamped_frame_bounded_steps :
    (∀ acc raw : ℚ, 0 ≤ acc → 0 ≤ raw →
      ((tickPhysics acc (safeDelta raw)).2 : ℤ) ≤ ⌊(acc + 1/10) / fixedTimeStep⌋) ∧
    (tickPhysics 0 (safeDelta (frameDelta 0 500))).2 = 6 ∧
    (tickPhysics 0 (safeDelta (frameDelta 0 500))).2 ≠ 30 := by
  have hclamp : ∀ acc raw : ℚ, 0 ≤ acc → 0 ≤ raw →
      ((tickPhysics acc (safeDelta raw)).2 : ℤ) ≤ ⌊(acc + 1/10) / fixedTimeStep⌋ := by
    intro acc raw hacc hraw
    have hs : 0 ≤ safeDelta raw := le_min hraw (by norm_num)
    have hspec := fixedStepLoop_spec (acc + safeDelta raw) (add_nonneg hacc hs)
    rw [tickPhysics, hspec.2.2]
    apply Int.floor_le_floor
    apply div_le_div_of_nonneg_right ?_ fixedTimeStep_pos.le
    exact add_le_add_left (min_le_right raw (1/10)) acc
  have he : safeDelta (frameDelta 0 500) = 1/10 := by
    unfold safeDelta frameDelta
    rw [show ((500 : ℚ) - 0) / 1000 = 1/2 by norm_num]
    rw [min_eq_right (by norm_num : (1/10 : ℚ) ≤ 1/2)]
  have h6 : (tickPhysics 0 (safeDelta (frameDelta 0 500))).2 = 6 := by
    have hspec := fixedStepLoop_spec ((0 : ℚ) + 1/10) (by norm_num)
    have hfl : ⌊((0 : ℚ) + 1/10) / fixedTimeStep⌋ = 6 := by
      rw [fixedTimeStep]; norm_num
    rw [tickPhysics, he] at *
    exact_mod_cast hspec.2.2.trans hfl
  exact ⟨hclamp, h6, by rw [h6]; decide⟩

/-- Witness for C8's bound at `accumulator = 0`, raw delta `1/2` s. -/
theorem clamped_frame_bounded_steps_witness :
    0 ≤ (0 : ℚ) ∧ 0 ≤ (1/2 : ℚ) ∧
      ((tickPhysics 0 (safeDelta (1/2))).2 : ℤ) ≤ ⌊((0 : ℚ) + 1/10) / fixedTimeStep⌋ :=
  ⟨le_refl 0, by norm_num,
    clamped_frame_bounded_steps.1 0 (1/2) (le_refl 0) (by norm_num)⟩

/-- Claim C9: the inventory is a single `Option` slot, so it holds at most
one key color at any time; a key pickup (`onInteract` on a key) overwrites
both `inventory.held` and `globalState.inventory.held` with the picked-up
key's color regardless of what was held before (no stacking). -/
theorem inventory_overwrite (s : GameState) (keyE : Entity) (id : String)
    (color : KeyColor) (ks : GlobalKeyState)
    (h : mget s.globalKeys id = some ks) :
    (keyOnInteract keyE id color s).invHeld = some color ∧
    (keyOnInteract keyE id color s).globalInvHeld = some ks.color := by
  unfold keyOnInteract keyCollect showUIMessage
  rw [h]
  exact ⟨rfl, rfl⟩

/-- Claim C3: for a door interactable as instantiated by `buildScene`
(`isOpen` snapshot `false`, persistent entry present and not open),
`onInteract` sets the persistent `isOpen` flag exactly when the held
inventory key color equals the door's color; when the colors differ, the
persistent door state, the inventory and the registry are unchanged and a
"need key of color X" message is requested. -/
theorem door_open_iff_matching_key (s : GameState) (doorE : Entity)
    (id : String) (color : DoorColor) (ds : GlobalDoorState)
    (hd : mget s.globalDoors id = some ds) (ho : ds.isOpen = false) :
    ((mget (doorOnInteract doorE id color false s).globalDoors id =
        some { ds with isOpen := true }) ↔ s.invHeld = some color) ∧
    (s.invHeld ≠ some color →
      (doorOnInteract doorE id color false s).globalDoors = s.globalDoors ∧
      (doorOnInteract doorE id color false s).invHeld = s.invHeld ∧
      (doorOnInteract doorE id color false s).globalInvHeld = s.globalInvHeld ∧
      (doorOnInteract doorE id color false s).ecs = s.ecs ∧
      (doorOnInteract doorE id color false s).world = s.world ∧
      (doorOnInteract doorE id color false s).uiMessage =
        some (UIMsg.doorNeedKey color)) := by
  by_cases hh : s.invHeld = some color
  · unfold doorOnInteract
    rw [if_pos ⟨hh, rfl⟩]
    unfold doorOpen showUIMessage
    rw [hd]
    refine ⟨⟨fun _ => hh, fun _ => ?_⟩, fun hc => absurd hh hc⟩
    exact mget_mset_self _ _ _
  · unfold doorOnInteract
    rw [if_neg (fun hcon => hh hcon.1), if_pos hh]
    unfold showUIMessage
    refine ⟨⟨?_, fun hcol => absurd hcol hh⟩, fun _ => ⟨rfl, rfl, rfl, rfl, rfl, rfl⟩⟩
    intro heq
    rw [hd] at heq
    have h2 : ds = { ds with isOpen := true } := Option.some.inj heq
    have h3 : ds.isOpen = true := congrArg GlobalDoorState.isOpen h2
    rw [ho] at h3
    exact absurd h3 (by decide)

/-- Claim C4: a key descriptor whose persistent state is `collected` and a
door descriptor whose persistent state is `isOpen` are skipped entirely by
the scene build (no entity, renderable, interactable or physics body is
instantiated — the builder state is unchanged); and after a door is opened
mid-scene, no physics handle for it remains in the physics-body table. -/
theorem consumed_objects_omitted :
    (∀ (k : KeyConfig) (s : GameState) (ks : GlobalKeyState),
        mget s.globalKeys k.id = some ks → ks.collected = true →
        buildKey k s = s) ∧
    (∀ (d : DoorConfig) (s : GameState) (ds : GlobalDoorState),
        mget s.globalDoors d.id = some ds → ds.isOpen = true →
        buildDoor d s = s) ∧
    (∀ (doorE : Entity) (id : String) (s : GameState) (ds : GlobalDoorState),
        mget s.globalDoors id = some ds →
        mget (doorOpen doorE id s).ecs.physicsBodies doorE = none) := by
  refine ⟨?_, ?_, ?_⟩
  · intro k s ks hk hc
    simp [buildKey, hk, hc]
  · intro d s ds hd ho
    simp [buildDoor, hd, ho]
  · intro doorE id s ds hd
    unfold doorOpen showUIMessage
    rw [hd]
    exact mget_mdel_self _ _

/-- Claim C10: `wasKeyPressed` reports true for at most one frame per
physical press: a `keydown` for a key already in `keysDown` does not re-add
it to the pressed-edge set (browser auto-repeat produces no repeated
edges), `Input.update()` clears both edge sets, and in particular a held
jump key pressed again after a frame boundary reports no new edge. -/
theorem pressed_edge_single_frame :
    (∀ (st : InputState) (code : String), code ∈ st.keysDown →
        (keydownEvent code st).keysPressed = st.keysPressed) ∧
    (∀ st : InputState, (updateInput st).keysPressed = ∅ ∧
        (updateInput st).keysReleased = ∅) ∧
    (wasKeyPressed "Space" (keydownEvent "Space" InputState.init) = true ∧
      wasKeyPressed "Space"
        (keydownEvent "Space"
          (updateInput (keydownEvent "Space" InputState.init))) = false) := by
  refine ⟨?_, fun st => ⟨rfl, rfl⟩, ?_, ?_⟩
  · intro st code h
    unfold keydownEvent
    dsimp only
    rw [if_pos h]
  · simp [wasKeyPressed, keydownEvent, InputState.init]
  · simp [wasKeyPressed, keydownEvent, updateInput, InputState.init]

/-- Claim C1 (divergence witness): after building `testScene` the
uncollected key `"keyRed1"` is entity 7 with an interactable component;
`loadScene` clears the other component tables (entity 7 loses its
transform) but leaves the `interactables` table untouched, so the
previous scene's key interactable is still present after the reload. -/
theorem interactables_survive_scene_reload :
    mget (buildScene testScene GameState.fresh).1.ecs.interactables 7 =
      some ⟨1, InteractKind.keyItem "keyRed1" KeyColor.red⟩ ∧
    mget (loadScene 1 (buildScene testScene GameState.fresh).1).ecs.interactables 7 =
      some ⟨1, InteractKind.keyItem "keyRed1" KeyColor.red⟩ ∧
    mget (loadScene 1 (buildScene testScene GameState.fresh).1).ecs.transforms 7 =
      none := by
  refine ⟨?_, ?_, ?_⟩ <;> decide

/-- Claim C2 (counterexample): building a scene whose two key descriptors
share the id `"k"` does not fail — both descriptors are instantiated as
separate entities (4 and 5), both projecting the single persistent entry
registered by the first descriptor (color red; the second descriptor's
blue is ignored), and the build returns a populated registry. -/
theorem duplicate_ids_not_fatal :
    (mget (buildScene dupKeyScene GameState.fresh).1.ecs.interactables 4 =
        some ⟨1, InteractKind.keyItem "k" KeyColor.red⟩) ∧
    (mget (buildScene dupKeyScene GameState.fresh).1.ecs.interactables 5 =
        some ⟨1, InteractKind.keyItem "k" KeyColor.red⟩) ∧
    (buildScene dupKeyScene GameState.fresh).1.globalKeys =
      [("k", ⟨KeyColor.red, false⟩)] := by
  refine ⟨?_, ?_, ?_⟩ <;> decide

/-- Claim C2 (amended): duplicate key/door ids are not detected; when a
descriptor's id is already registered (and not yet consumed), the build
proceeds, registers nothing new in persistent state, and instantiates an
interactable that projects the existing entry (keeping its color). -/
theorem duplicate_id_shares_persistent_entry :
    (∀ (k : KeyConfig) (s : GameState) (ks : GlobalKeyState),
        mget s.globalKeys k.id = some ks → ks.collected = false →
        (buildKey k s).globalKeys = s.globalKeys ∧
        mget (buildKey k s).ecs.interactables s.ecs.nextEntity =
          some ⟨1, InteractKind.keyItem k.id ks.color⟩) ∧
    (∀ (d : DoorConfig) (s : GameState) (ds : GlobalDoorState),
        mget s.globalDoors d.id = some ds → ds.isOpen = false →
        (buildDoor d s).globalDoors = s.globalDoors ∧
        mget (buildDoor d s).ecs.interactables s.ecs.nextEntity =
          some ⟨2, InteractKind.doorItem d.id ds.color ds.isOpen⟩) := by
  constructor
  · intro k s ks hk hc
    constructor
    · simp [buildKey, hk, hc]
    · simp only [buildKey, hk, Option.isSome_some, if_true, hc]
      exact mget_mset_self _ _ _
  · intro d s ds hd ho
    constructor
    · simp [buildDoor, hd, ho]
    · simp only [buildDoor, hd, Option.isSome_some, if_true, ho]
      exact mget_mset_self _ _ _


theorem buildCollectible_sceneIndex (pos : Vec3) (s : GameState) :
    (buildCollectible pos s).currentSceneIndex = s.currentSceneIndex := rfl

theorem buildPlatform_sceneIndex (p : PlatformConfig) (s : GameState) :
    (buildPlatform p s).currentSceneIndex = s.currentSceneIndex := rfl

theorem buildKey_sceneIndex (k : KeyConfig) (s : GameState) :
    (buildKey k s).currentSceneIndex = s.currentSceneIndex := by
  unfold buildKey
  dsimp only
  split
  · split <;> rfl
  · split
    · split <;> rfl
    · split <;> rfl

theorem buildDoor_sceneIndex (d : DoorConfig) (s : GameState) :
    (buildDoor d s).currentSceneIndex = s.currentSceneIndex := by
  unfold buildDoor
  dsimp only
  split
  · split <;> rfl
  · split
    · split <;> rfl
    · split <;> rfl

theorem buildScene_sceneIndex (config : SceneConfig) (s : GameState) :
    (buildScene config s).1.currentSceneIndex = s.currentSceneIndex := by
  unfold buildScene
  dsimp only
  rw [foldl_inv _ _ (fun s x => buildPlatform_sceneIndex x s)]
  rw [foldl_inv _ _ (fun s x => buildDoor_sceneIndex x s)]
  rw [foldl_inv _ _ (fun s x => buildKey_sceneIndex x s)]
  rw [foldl_inv _ _ (fun s x => buildCollectible_sceneIndex x s)]

theorem loadScene_sceneIndex (idx : Nat) (s : GameState) :
    (loadScene idx s).currentSceneIndex = s.currentSceneIndex := by
  unfold loadScene
  dsimp only
  rw [buildScene_sceneIndex]

theorem triggerPhase_not_all (p : Vec3) (s : GameState)
    (h : computeAllCollected s.ecs = false) :
    triggerPhase p s = { s with ecs := pickupStep p s.ecs } := by
  unfold triggerPhase
  rw [h]
  unfold winCheckStep
  rw [if_neg (by decide)]


theorem triggerPhase_advance (p : Vec3) (s : GameState) (e : Entity)
    (win : WinCondition) (t : Transform)
    (hall : computeAllCollected s.ecs = true)
    (hwl : (pickupStep p s.ecs).winConditions = [(e, win)])
    (hc : win.completed = false)
    (ht : mget (pickupStep p s.ecs).transforms e = some t)
    (hw : withinRadius p t.position win.triggerRadius = true)
    (hidx : s.currentSceneIndex + 1 < scenes.length) :
    (triggerPhase p s).currentSceneIndex = s.currentSceneIndex + 1 := by
  unfold triggerPhase
  rw [hall]
  unfold winCheckStep
  rw [if_pos rfl]
  try dsimp only
  rw [hwl]
  simp only [winCheckList]
  rw [if_neg (by rw [hc]; exact Bool.false_ne_true)]
  try dsimp only
  rw [ht]
  try dsimp only
  rw [hw]
  rw [if_pos rfl]
  try dsimp only
  rw [if_pos hidx]
  try dsimp only
  rw [loadScene_sceneIndex]

/-- Claim C7: the win condition's proximity is checked only if every
collectible was collected (the gate is computed before this frame's
pickups): otherwise the trigger phase leaves the scene index, the
win-condition table and the physics world untouched.  Scenario: on
`testScene` (3 collectibles, radius 1.0), visiting the three collectible
positions collects all three while the scene index stays 0, and a
subsequent arrival at the win position advances the scene index to 1. -/
theorem win_gated_on_all_collected :
    (∀ (p : Vec3) (s : GameState), computeAllCollected s.ecs = false →
      (triggerPhase p s).currentSceneIndex = s.currentSceneIndex ∧
      (triggerPhase p s).ecs.winConditions = s.ecs.winConditions ∧
      (triggerPhase p s).world = s.world) ∧
    (let s0 := loadScene 0 GameState.fresh
     let s1 := triggerPhase ⟨0, 7/2, -3⟩ s0
     let s2 := triggerPhase ⟨0, 3/2, 3⟩ s1
     let s3 := triggerPhase ⟨0, 11/2, -8⟩ s2
     let s4 := triggerPhase ⟨0, 15/2, -1⟩ s3
     computeAllCollected s3.ecs = true ∧
     s3.currentSceneIndex = 0 ∧ s4.currentSceneIndex = 1) := by
  constructor
  · intro p s h
    rw [triggerPhase_not_all p s h]
    exact ⟨rfl, rfl, rfl⟩
  · -- the concrete three-collectible scenario on testScene
    have w11 : withinRadius ⟨0, 7/2, -3⟩ ⟨0, 7/2, -3⟩ 1 = true := by
      norm_num [withinRadius, distSq]
    have w12 : withinRadius ⟨0, 7/2, -3⟩ ⟨0, 3/2, 3⟩ 1 = false := by
      norm_num [withinRadius, distSq]
    have w13 : withinRadius ⟨0, 7/2, -3⟩ ⟨0, 11/2, -8⟩ 1 = false := by
      norm_num [withinRadius, distSq]
    have w22 : withinRadius ⟨0, 3/2, 3⟩ ⟨0, 3/2, 3⟩ 1 = true := by
      norm_num [withinRadius, distSq]
    have w23 : withinRadius ⟨0, 3/2, 3⟩ ⟨0, 11/2, -8⟩ 1 = false := by
      norm_num [withinRadius, distSq]
    have w33 : withinRadius ⟨0, 11/2, -8⟩ ⟨0, 11/2, -8⟩ 1 = true := by
      norm_num [withinRadius, distSq]
    have w44 : withinRadius ⟨0, 15/2, -1⟩ ⟨0, 15/2, -1⟩ 1 = true := by
      norm_num [withinRadius, distSq]
    set s0 := loadScene 0 GameState.fresh with hs0def
    have hcol0 : s0.ecs.collectibles =
        [(4, ⟨false, 1⟩), (5, ⟨false, 1⟩), (6, ⟨false, 1⟩)] := rfl
    have ht4 : mget s0.ecs.transforms 4 = some ⟨⟨0, 7/2, -3⟩, vzero, vone⟩ := rfl
    have ht5 : mget s0.ecs.transforms 5 = some ⟨⟨0, 3/2, 3⟩, vzero, vone⟩ := rfl
    have ht6 : mget s0.ecs.transforms 6 = some ⟨⟨0, 11/2, -8⟩, vzero, vone⟩ := rfl
    have hidx0 : s0.currentSceneIndex = 0 := rfl
    -- frame 1: visit the first collectible
    have hall0 : computeAllCollected s0.ecs = false := by
      rw [computeAllCollected, hcol0]; rfl
    have hs1 := triggerPhase_not_all ⟨0, 7/2, -3⟩ s0 hall0
    have hcol1 : (pickupStep ⟨0, 7/2, -3⟩ s0.ecs).collectibles =
        [(4, ⟨true, 1⟩), (5, ⟨false, 1⟩), (6, ⟨false, 1⟩)] := by
      rw [pickupStep]
      dsimp only
      rw [hcol0]
      simp [ht4, ht5, ht6, w11, w12, w13]
    -- frame 2: visit the second collectible
    have hall1 : computeAllCollected (triggerPhase ⟨0, 7/2, -3⟩ s0).ecs = false := by
      rw [hs1]
      show computeAllCollected (pickupStep ⟨0, 7/2, -3⟩ s0.ecs) = false
      rw [computeAllCollected, hcol1]; rfl
    have hs2 := triggerPhase_not_all ⟨0, 3/2, 3⟩ (triggerPhase ⟨0, 7/2, -3⟩ s0) hall1
    have hcol2 : (pickupStep ⟨0, 3/2, 3⟩ (pickupStep ⟨0, 7/2, -3⟩ s0.ecs)).collectibles =
        [(4, ⟨true, 1⟩), (5, ⟨true, 1⟩), (6, ⟨false, 1⟩)] := by
      rw [pickupStep]
      dsimp only
      rw [hcol1]
      have htr1 : (pickupStep ⟨0, 7/2, -3⟩ s0.ecs).transforms = s0.ecs.transforms := rfl
      simp [htr1, ht5, ht6, w22, w23]
    -- frame 3: visit the third collectible
    have hall2 : computeAllCollected
        (triggerPhase ⟨0, 3/2, 3⟩ (triggerPhase ⟨0, 7/2, -3⟩ s0)).ecs = false := by
      rw [hs2, hs1]
      show computeAllCollected
        (pickupStep ⟨0, 3/2, 3⟩ (pickupStep ⟨0, 7/2, -3⟩ s0.ecs)) = false
      rw [computeAllCollected, hcol2]; rfl
    have hs3 := triggerPhase_not_all ⟨0, 11/2, -8⟩
      (triggerPhase ⟨0, 3/2, 3⟩ (triggerPhase ⟨0, 7/2, -3⟩ s0)) hall2
    have hcol3 : (pickupStep ⟨0, 11/2, -8⟩ (pickupStep ⟨0, 3/2, 3⟩
        (pickupStep ⟨0, 7/2, -3⟩ s0.ecs))).collectibles =
        [(4, ⟨true, 1⟩), (5, ⟨true, 1⟩), (6, ⟨true, 1⟩)] := by
      rw [pickupStep]
      dsimp only
      rw [hcol2]
      have htr2 : (pickupStep ⟨0, 3/2, 3⟩
          (pickupStep ⟨0, 7/2, -3⟩ s0.ecs)).transforms = s0.ecs.transforms := rfl
      simp [htr2, ht6, w33]
    -- after frame 3 every collectible is collected and the scene is unchanged
    have goalA : computeAllCollected (triggerPhase ⟨0, 11/2, -8⟩
        (triggerPhase ⟨0, 3/2, 3⟩ (triggerPhase ⟨0, 7/2, -3⟩ s0))).ecs = true := by
      rw [hs3, hs2, hs1]
      show computeAllCollected (pickupStep ⟨0, 11/2, -8⟩ (pickupStep ⟨0, 3/2, 3⟩
        (pickupStep ⟨0, 7/2, -3⟩ s0.ecs))) = true
      rw [computeAllCollected, hcol3]; rfl
    have goalB : (triggerPhase ⟨0, 11/2, -8⟩
        (triggerPhase ⟨0, 3/2, 3⟩ (triggerPhase ⟨0, 7/2, -3⟩ s0))).currentSceneIndex = 0 := by
      rw [hs3, hs2, hs1]
      exact hidx0
    -- frame 4: arrival at the win position advances the scene index
    have hwl : (pickupStep ⟨0, 15/2, -1⟩ (triggerPhase ⟨0, 11/2, -8⟩
        (triggerPhase ⟨0, 3/2, 3⟩ (triggerPhase ⟨0, 7/2, -3⟩ s0))).ecs).winConditions =
        [(3, ⟨false, 1⟩)] := by
      rw [hs3, hs2, hs1]
      rfl
    have ht3w : mget (pickupStep ⟨0, 15/2, -1⟩ (triggerPhase ⟨0, 11/2, -8⟩
        (triggerPhase ⟨0, 3/2, 3⟩ (triggerPhase ⟨0, 7/2, -3⟩ s0))).ecs).transforms 3 =
        some ⟨⟨0, 15/2, -1⟩, vzero, vone⟩ := by
      rw [hs3, hs2, hs1]
      rfl
    have hidx3 : (triggerPhase ⟨0, 11/2, -8⟩ (triggerPhase ⟨0, 3/2, 3⟩
        (triggerPhase ⟨0, 7/2, -3⟩ s0))).currentSceneIndex + 1 < scenes.length := by
      rw [goalB]; decide
    have goalC := triggerPhase_advance ⟨0, 15/2, -1⟩
      (triggerPhase ⟨0, 11/2, -8⟩ (triggerPhase ⟨0, 3/2, 3⟩ (triggerPhase ⟨0, 7/2, -3⟩ s0)))
      3 ⟨false, 1⟩ ⟨⟨0, 15/2, -1⟩, vzero, vone⟩ goalA hwl rfl ht3w w44 hidx3
    rw [goalB] at goalC
    exact ⟨goalA, goalB, goalC⟩


/-- Witness for C2's amended claim: the second duplicate descriptor
(blue) applied to a state where `"k"` is already registered as red. -/
theorem duplicate_id_shares_persistent_entry_witness :
    mget demoDupRegistered.globalKeys "k" = some ⟨KeyColor.red, false⟩ ∧
    ((buildKey ⟨"k", KeyColor.blue, ⟨1, 0, 0⟩⟩ demoDupRegistered).globalKeys =
        demoDupRegistered.globalKeys ∧
      mget (buildKey ⟨"k", KeyColor.blue, ⟨1, 0, 0⟩⟩
          demoDupRegistered).ecs.interactables demoDupRegistered.ecs.nextEntity =
        some ⟨1, InteractKind.keyItem "k" KeyColor.red⟩) :=
  ⟨by decide, duplicate_id_shares_persistent_entry.1 ⟨"k", KeyColor.blue, ⟨1, 0, 0⟩⟩
    demoDupRegistered ⟨KeyColor.red, false⟩ (by decide) rfl⟩

/-- Witness for C3 at a concrete door with the matching red key held. -/
theorem door_open_iff_matching_key_witness :
    mget demoDoorState.globalDoors "doorRed1" = some ⟨KeyColor.red, false⟩ ∧
    (((mget (doorOnInteract 5 "doorRed1" KeyColor.red false
          demoDoorState).globalDoors "doorRed1" = some ⟨KeyColor.red, true⟩) ↔
        demoDoorState.invHeld = some KeyColor.red) ∧
      (demoDoorState.invHeld ≠ some KeyColor.red →
        (doorOnInteract 5 "doorRed1" KeyColor.red false demoDoorState).globalDoors =
          demoDoorState.globalDoors ∧
        (doorOnInteract 5 "doorRed1" KeyColor.red false demoDoorState).invHeld =
          demoDoorState.invHeld ∧
        (doorOnInteract 5 "doorRed1" KeyColor.red false demoDoorState).globalInvHeld =
          demoDoorState.globalInvHeld ∧
        (doorOnInteract 5 "doorRed1" KeyColor.red false demoDoorState).ecs =
          demoDoorState.ecs ∧
        (doorOnInteract 5 "doorRed1" KeyColor.red false demoDoorState).world =
          demoDoorState.world ∧
        (doorOnInteract 5 "doorRed1" KeyColor.red false demoDoorState).uiMessage =
          some (UIMsg.doorNeedKey KeyColor.red))) :=
  ⟨by decide, door_open_iff_matching_key demoDoorState 5 "doorRed1" KeyColor.red
    ⟨KeyColor.red, false⟩ (by decide) rfl⟩

/-- Witness for C4: a collected key and an open door are skipped by the
build, and opening a door removes its physics-body entry. -/
theorem consumed_objects_omitted_witness :
    mget demoKeyCollected.globalKeys "keyRed1" = some ⟨KeyColor.red, true⟩ ∧
    buildKey ⟨"keyRed1", KeyColor.red, ⟨0, 1, -5⟩⟩ demoKeyCollected =
      demoKeyCollected ∧
    mget demoDoorOpen.globalDoors "doorRed1" = some ⟨KeyColor.red, true⟩ ∧
    buildDoor ⟨"doorRed1", KeyColor.red, ⟨-1/2, 3, -2⟩, ⟨1/2, 5/2, 39/10⟩⟩
      demoDoorOpen = demoDoorOpen ∧
    mget (doorOpen 5 "doorRed1" demoDoorState).ecs.physicsBodies 5 = none :=
  ⟨by decide,
   consumed_objects_omitted.1 ⟨"keyRed1", KeyColor.red, ⟨0, 1, -5⟩⟩
     demoKeyCollected ⟨KeyColor.red, true⟩ (by decide) rfl,
   by decide,
   consumed_objects_omitted.2.1
     ⟨"doorRed1", KeyColor.red, ⟨-1/2, 3, -2⟩, ⟨1/2, 5/2, 39/10⟩⟩
     demoDoorOpen ⟨KeyColor.red, true⟩ (by decide) rfl,
   consumed_objects_omitted.2.2 5 "doorRed1" demoDoorState
     ⟨KeyColor.red, false⟩ (by decide)⟩

/-- Witness for C5 on a state whose win condition is completed. -/
theorem win_trigger_at_most_once_witness :
    demoWinDone.ecs.winConditions.all (fun pr => pr.2.completed) = true ∧
    winCheckStep true vzero demoWinDone = demoWinDone :=
  ⟨by decide, win_trigger_at_most_once true vzero demoWinDone (by decide)⟩

/-- Witness for C7's gating on a state with an uncollected collectible. -/
theorem win_gated_on_all_collected_witness :
    computeAllCollected demoUncollected.ecs = false ∧
    ((triggerPhase vzero demoUncollected).currentSceneIndex =
        demoUncollected.currentSceneIndex ∧
      (triggerPhase vzero demoUncollected).ecs.winConditions =
        demoUncollected.ecs.winConditions ∧
      (triggerPhase vzero demoUncollected).world = demoUncollected.world) :=
  ⟨by decide, win_gated_on_all_collected.1 vzero demoUncollected (by decide)⟩

/-- Witness for C9: picking up the red key while holding the blue key
leaves only the red key held. -/
theorem inventory_overwrite_witness :
    demoHoldingBlue.invHeld = some KeyColor.blue ∧
    mget demoHoldingBlue.globalKeys "keyRed1" = some ⟨KeyColor.red, false⟩ ∧
    (keyOnInteract 7 "keyRed1" KeyColor.red demoHoldingBlue).invHeld =
      some KeyColor.red ∧
    (keyOnInteract 7 "keyRed1" KeyColor.red demoHoldingBlue).globalInvHeld =
      some KeyColor.red :=
  ⟨rfl, by decide,
   (inventory_overwrite demoHoldingBlue 7 "keyRed1" KeyColor.red
     ⟨KeyColor.red, false⟩ (by decide)).1,
   (inventory_overwrite demoHoldingBlue 7 "keyRed1" KeyColor.red
     ⟨KeyColor.red, false⟩ (by decide)).2⟩

/-- Witness for C10: a second keydown for the already-held jump key adds no
new pressed edge. -/
theorem pressed_edge_single_frame_witness :
    "Space" ∈ (keydownEvent "Space" InputState.init).keysDown ∧
    (keydownEvent "Space" (keydownEvent "Space" InputState.init)).keysPressed =
      (keydownEvent "Space" InputState.init).keysPressed :=
  ⟨by decide, pressed_edge_single_frame.1 (keydownEvent "Space" InputState.init)
    "Space" (by decide)⟩

end Game
